import Mathlib

/-!
Verification development for the Hawkbit config-driven rollout script
(`hawkbit_rollout.py`).  The script's functions are shallowly embedded as
Lean definitions: HTTP interactions are modelled by passing the server's
response (status code and decoded JSON body) as explicit arguments, and
the stateful filter/rollout endpoints of the device-management server are
modelled as explicit state-passing functions built from the REST contract.
Machine strings from the Python side are modelled as Lean `String`s, except
in the query-builder development where `List Char` is used so that the
string is inspectable character by character (Python `str` is a sequence
of characters).
-/

namespace Hawkbit

/-! ### Identifier Resolver: `get_distribution_set`

The server's answer to `GET /rest/v1/distributionsets?name==N;version==V`
is modelled as the HTTP status code together with the decoded list of
distribution-set entries (each entry carries `id`, `name`, `version` per
the REST contract). -/

/-- One distribution-set entry of the JSON answer. -/
structure DistSet where
  id : Nat
  name : String
  version : String
deriving DecidableEq, Repr

/-- Embedding of `get_distribution_set`: on a non-200 status the function
logs and returns `None`; otherwise it walks the returned list and returns
the `id` of the first entry whose `name` and `version` both equal the
requested values, or `None` if no entry matches. -/
def get_distribution_set (status : Nat) (sets : List DistSet)
    (name version : String) : Option Nat :=
  if status ≠ 200 then none
  else
    match sets.find? (fun ds => ds.name == name && ds.version == version) with
    | some ds => some ds.id
    | none => none

/-! ### Device Status Inspector: `get_assigned_ds` / `get_installed_ds`

Each query is modelled by the response status code plus the decoded body
(name, version) that the function would print on a 200.  The returned
value of the Python function is a `bool`; the printed message is modelled
as a separate message tag so that the claim about messages versus return
values can be stated. -/

/-- The three message shapes `get_assigned_ds` / `get_installed_ds` print. -/
inductive DsMsg where
  | present (name version : String)
  | absent
  | fetchError (status : Nat)
deriving DecidableEq, Repr

/-- Embedding of `get_assigned_ds`: 200 → print the assigned set, return
`true`; 204 → print "No assigned distribution set.", return `false`;
anything else → print the error with the status, return `false`. -/
def get_assigned_ds (status : Nat) (dsName dsVersion : String) :
    Bool × DsMsg :=
  if status = 200 then (true, .present dsName dsVersion)
  else if status = 204 then (false, .absent)
  else (false, .fetchError status)

/-- Embedding of `get_installed_ds`: same 200/204/other contract as
`get_assigned_ds` (the printed texts differ, the shapes coincide). -/
def get_installed_ds (status : Nat) (dsName dsVersion : String) :
    Bool × DsMsg :=
  if status = 200 then (true, .present dsName dsVersion)
  else if status = 204 then (false, .absent)
  else (false, .fetchError status)

/-! ### Selection Query Builder: `generate_or_query`

Python strings are modelled here as `List Char` so that the built query
can be inspected character by character.  The CSV file is external input;
its already-parsed rows (a list of rows, each a list of cell strings) are
the function's argument. -/

/-- Python `str.strip`: drop whitespace from both ends. -/
def strip (s : List Char) : List Char :=
  ((s.dropWhile Char.isWhitespace).reverse.dropWhile Char.isWhitespace).reverse

/-- The serial-collection loop of `generate_or_query`: every CSV cell is
stripped and kept when non-empty (Python truthiness of a string), row by
row, in order — no de-duplication. -/
def collectSerials (rows : List (List (List Char))) : List (List Char) :=
  (rows.flatten.map strip).filter (fun v => v != [])

/-- The double-quote character of the built predicates. -/
def quoteChar : Char := '"'

/-- One predicate of the OR-query: Python `f'name==\x7bs\x7d'` surrounded
by escaped double quotes, i.e. the characters of `name=="` ++ s ++ `"`. -/
def predFor (s : List Char) : List Char :=
  "name==".data ++ (quoteChar :: (s ++ [quoteChar]))

/-- Python `sep.join(parts)`. -/
def pyJoin (sep : List Char) : List (List Char) → List Char
  | [] => []
  | [x] => x
  | x :: y :: xs => x ++ (sep ++ pyJoin sep (y :: xs))

/-- The query string built by `generate_or_query`:
`"(" + " or ".join([...]) + ")"`. -/
def buildOrQuery (serials : List (List Char)) : List Char :=
  '(' :: (pyJoin " or ".data (serials.map predFor) ++ [')'])

/-- Outcome of `generate_or_query`; the `RuntimeError` raised on an empty
serial list is the `emptyInputError` variant (the spec's
`EmptyInputError`). -/
inductive QueryResult where
  | ok (query : List Char) (serials : List (List Char))
  | emptyInputError
deriving DecidableEq, Repr

/-- Embedding of `generate_or_query` on already-parsed CSV rows: strip
every cell, keep the non-blank ones, fail when none remain, otherwise
return the OR-query together with the collected serial list. -/
def generate_or_query (rows : List (List (List Char))) : QueryResult :=
  let serials := collectSerials rows
  if serials = [] then .emptyInputError
  else .ok (buildOrQuery serials) serials

/-- Modelled from the spec: the spec's round-trip check "extract
identifiers from the OR-expression" (§8) names no function of the
repository, so it is defined from the spec's words — scan the expression
and collect the runs of characters standing between consecutive pairs of
double quotes, in order.  `acc` holds the characters of the currently open
quoted run, reversed; `inQ` says whether a quote is open. -/
def extractAux : List Char → List Char → Bool → List (List Char)
  | [], _, _ => []
  | c :: rest, acc, inQ =>
    if inQ then
      if c = quoteChar then acc.reverse :: extractAux rest [] false
      else extractAux rest (c :: acc) true
    else
      if c = quoteChar then extractAux rest [] true
      else extractAux rest [] false

/-- The quoted identifiers of an expression, in order. -/
def extractQuoted (s : List Char) : List (List Char) :=
  extractAux s [] false

/-! ### Rollout Creator: `create_rollout` -/

/-- Outcome of `create_rollout`: its three print/return paths — an
identifier taken from the response body, the conflict skip, or the
reported failure carrying status and response body. -/
inductive CreateOutcome where
  | created (id : Nat)
  | skip
  | failure (status : Nat) (body : String)
deriving DecidableEq, Repr

/-- Embedding of `create_rollout`: the function checks
`status_code in (200, 201)` and then returns the body's `id`; a 409
takes the skip path; anything else the failure path. -/
def create_rollout (status : Nat) (bodyId : Nat) (bodyText : String) :
    CreateOutcome :=
  if status = 200 ∨ status = 201 then .created bodyId
  else if status = 409 then .skip
  else .failure status bodyText

/-- Modelled from the spec: the server's rollout store behind
`POST /rest/v1/rollouts` (§6: "201 created, 409 exists") — a taken name
answers 409 and changes nothing; a fresh name answers 201, hands out a
fresh identifier and is recorded. -/
structure RolloutServer where
  names : List String
  nextId : Nat
deriving DecidableEq, Repr

/-- Modelled from the spec: one `POST /rest/v1/rollouts` exchange — the
response status, the body identifier, and the server state after. -/
def serverCreateRollout (srv : RolloutServer) (name : String) :
    Nat × Nat × RolloutServer :=
  if name ∈ srv.names then (409, 0, srv)
  else (201, srv.nextId, ⟨srv.names ++ [name], srv.nextId + 1⟩)

/-- `create_rollout` run against the modelled rollout server. -/
def create_rollout_on (srv : RolloutServer) (name : String) :
    CreateOutcome × RolloutServer :=
  (create_rollout (serverCreateRollout srv name).1
    (serverCreateRollout srv name).2.1 "",
   (serverCreateRollout srv name).2.2)

/-! ### Selection Registrar: `create_target_filter` -/

/-- One target-filter entry of the server's filter list (`id`, `name`,
`query` per the REST contract). -/
structure FilterEntry where
  id : Nat
  name : String
  query : String
deriving DecidableEq, Repr

/-- Embedding of `create_target_filter`, parameterized over the three
server exchanges the function performs (`post` the creation, `list` the
existing filters, `put` the update on a filter id), each threading a
server state `σ`.  Created (200/201) → `true`.  Conflict (409) → look up
the first listed entry with exactly the requested name; Python's
`if fid:` makes both a missing entry and an entry whose id is `0` take
the "Filter ID not found" path (`false`); otherwise the update's 200/204
answer decides the outcome.  Any other creation status → `false`. -/
def create_target_filter {σ : Type} (post : σ → Nat × σ)
    (list : σ → List FilterEntry) (put : σ → Nat → Nat × σ)
    (name : String) (s : σ) : Bool × σ :=
  if (post s).1 = 200 ∨ (post s).1 = 201 then (true, (post s).2)
  else if (post s).1 = 409 then
    match (list (post s).2).find? (fun f => f.name == name) with
    | some f =>
      if f.id = 0 then (false, (post s).2)
      else if (put (post s).2 f.id).1 = 200 ∨ (put (post s).2 f.id).1 = 204
        then (true, (put (post s).2 f.id).2)
        else (false, (put (post s).2 f.id).2)
    | none => (false, (post s).2)
  else (false, (post s).2)

/-- Modelled from the spec: the server's target-filter store (§6) —
`POST /rest/v1/targetfilters` answers 201 and records a fresh entry for a
new name, 409 for a taken name. -/
structure FilterServer where
  filters : List FilterEntry
  nextId : Nat
deriving DecidableEq, Repr

/-- Modelled from the spec: one `POST /rest/v1/targetfilters` exchange. -/
def serverPostFilter (srv : FilterServer) (name query : String) :
    Nat × FilterServer :=
  if srv.filters.any (fun f => f.name == name) then (409, srv)
  else (201, ⟨srv.filters ++ [⟨srv.nextId, name, query⟩], srv.nextId + 1⟩)

/-- Modelled from the spec: one `PUT /rest/v1/targetfilters/id` exchange —
200 and a replaced entry when the id exists, 404 otherwise. -/
def serverPutFilter (srv : FilterServer) (fid : Nat) (name query : String) :
    Nat × FilterServer :=
  if srv.filters.any (fun f => f.id == fid) then
    (200,
     ⟨srv.filters.map (fun f => if f.id = fid then ⟨fid, name, query⟩ else f),
      srv.nextId⟩)
  else (404, srv)

/-- `create_target_filter` run against the modelled filter server. -/
def create_target_filter_on (srv : FilterServer) (name query : String) :
    Bool × FilterServer :=
  create_target_filter (fun s => serverPostFilter s name query)
    FilterServer.filters (fun s fid => serverPutFilter s fid name query)
    name srv

/-! ### Rollout Activator: `start_rollout`

The status polls the loop performs are modelled attempt by attempt:
`none` stands for a non-200 answer (whose body the code never reads),
`some st` for a 200 answer whose body carries rollout status `st`. -/

/-- The fixed attempt bound of the activation loop, `range(20)`. -/
def ACTIVATION_ATTEMPTS : Nat := 20

/-- The fixed sleep between activation attempts, `time.sleep(5)`. -/
def ACTIVATION_SLEEP : Nat := 5

/-- The readiness loop of `start_rollout`: walk the attempts in order and
return the index of the first attempt whose 200-answer reports status
`ready`, or `none` when the attempt bound is exhausted. -/
def waitReady (polls : Nat → Option String) : Nat → Nat → Option Nat
  | 0, _ => none
  | fuel + 1, k =>
    if polls k = some "ready" then some k
    else waitReady polls fuel (k + 1)

/-- Outcome of `start_rollout`: either the start command was issued right
after the poll at `attempt` observed `ready` (`ok` records whether the
start answer was 200/202), or the bound was exhausted and the function
returned without ever issuing the start — the spec's
`ActivationTimeoutError`. -/
inductive StartOutcome where
  | startIssued (attempt : Nat) (ok : Bool)
  | activationTimeout
deriving DecidableEq, Repr

/-- Embedding of `start_rollout` for a valid rollout id: poll up to the
attempt bound for status `ready`; once observed, issue the start command
(whose answer has status `startStatus`); if the bound is exhausted,
report the timeout and never issue the start. -/
def start_rollout (polls : Nat → Option String) (startStatus : Nat) :
    StartOutcome :=
  match waitReady polls ACTIVATION_ATTEMPTS 0 with
  | some k => .startIssued k (startStatus == 200 || startStatus == 202)
  | none => .activationTimeout

/-! ### Rollout Monitor: `monitor_rollout_until_done`

The claim concerns runs in which every poll answers 200, so the poll
sequence is modelled by the reported rollout status of each poll:
`statuses k` is the status carried by the k-th 200 answer.  Each poll is
instantaneous and each sleep lasts `interval`, so the elapsed time read
by the timeout check right after poll `k` is `k * interval`.  The polling
interval is required positive: with a zero interval the wall clock of the
script still advances while the model's clock would not. -/

/-- The terminal statuses of the monitor loop, from
`status in ["finished", "error", "paused"]`. -/
def isTerminalStatus (s : String) : Bool :=
  s == "finished" || s == "error" || s == "paused"

/-- How and at which poll monitoring stopped: `ended` at the poll whose
status was terminal, or `timedOut` at the poll after which the elapsed
time first exceeded the timeout. -/
inductive MonitorResult where
  | ended (status : String) (poll : Nat)
  | timedOut (poll : Nat)
deriving DecidableEq, Repr

/-- The monitor loop from poll `k` on: the terminal-status check comes
first, then the timeout check (`time.time() - start_time > timeout`, with
the elapsed time after poll `k` being `k * interval`), else sleep one
interval and poll again. -/
def monitorFrom (statuses : Nat → String) (interval timeout : Nat)
    (hi : 0 < interval) (k : Nat) : MonitorResult :=
  if isTerminalStatus (statuses k) then .ended (statuses k) k
  else if k * interval > timeout then .timedOut k
  else monitorFrom statuses interval timeout hi (k + 1)
termination_by timeout / interval + 1 - k
decreasing_by
  simp_wf
  have hk : k ≤ timeout / interval := (Nat.le_div_iff_mul_le hi).2 (by omega)
  omega

/-- Embedding of `monitor_rollout_until_done` (all polls answering 200,
no manual interrupt): the loop starting at poll 0. -/
def monitor_rollout_until_done (statuses : Nat → String)
    (interval timeout : Nat) (hi : 0 < interval) : MonitorResult :=
  monitorFrom statuses interval timeout hi 0

/-! ### Sequence Driver: the per-bundle body of `main`'s rollout loop -/

/-- The externally visible steps the loop body takes for one bundle. -/
inductive DriveEvent where
  | resolveFailed
  | notCreated
  | activated (a : StartOutcome)
  | monitorEntered (m : MonitorResult)
deriving DecidableEq, Repr

/-- Whether a drive event is an entry into the monitor loop. -/
def isMonitorEnteredEvent : DriveEvent → Bool
  | .monitorEntered _ => true
  | _ => false

/-- One bundle's run inputs: the resolver's answer, the creation outcome,
the activation polls and start answer, and the monitor's poll statuses. -/
structure BundleRun where
  dsId : Option Nat
  createOutcome : CreateOutcome
  polls : Nat → Option String
  startStatus : Nat
  statuses : Nat → String

/-- Embedding of the per-bundle body of `main`'s rollout loop:
`if not ds_id:` skips (Python truthiness — `None` and `0` both skip);
then `rollout_id = create_rollout(...)` (an identifier on the created
path, `None` on skip and failure); `if rollout_id:` (truthiness again)
runs `start_rollout` and then always `monitor_rollout_until_done`,
whatever the activation outcome was; otherwise reports "not created". -/
def driveBundle (interval timeout : Nat) (hi : 0 < interval)
    (b : BundleRun) : List DriveEvent :=
  match b.dsId with
  | none => [.resolveFailed]
  | some d =>
    if d = 0 then [.resolveFailed]
    else
      match b.createOutcome with
      | .created rid =>
        if rid = 0 then [.notCreated]
        else
          [.activated (start_rollout b.polls b.startStatus),
           .monitorEntered
             (monitor_rollout_until_done b.statuses interval timeout hi)]
      | _ => [.notCreated]

/-- `main`'s rollout loop over the whole sequence: the bundles are
processed strictly in list order and the loop never aborts. -/
def driveSequence (interval timeout : Nat) (hi : 0 < interval)
    (bs : List BundleRun) : List (List DriveEvent) :=
  bs.map (driveBundle interval timeout hi)

/-! ### The generated rollout name and creation payload of `main` -/

/-- The constant name stem `"Rollout_Seq"` of the script. -/
def ROLLOUT_PREFIX : String := "Rollout_Seq"

/-- Python `s[-5:]`: the last five characters, or the whole string when
it is shorter. -/
def lastFive (s : String) : String :=
  ⟨(s.data.reverse.take 5).reverse⟩

/-- The rollout name `main` generates for the bundle at 1-based position
`idx`: the f-string of the stem, the chosen sequence key, the serial
suffix `serials[0][-5:]`, and `idx`, joined by underscores. -/
def rolloutName (seqChoice : String) (serials : List String)
    (idx : Nat) : String :=
  ROLLOUT_PREFIX ++ "_" ++ seqChoice ++ "_" ++ lastFive (serials.headD "")
    ++ "_" ++ toString idx

/-- The creation payload of `create_rollout` as `main` fills it:
`create_rollout(session, rollout_name, query, ds_id, 1, "forced")`
together with the constant `"start": "auto"` field. -/
structure RolloutPayload where
  name : String
  distributionSetId : Nat
  targetFilterQuery : String
  actionType : String
  amountGroups : Nat
  start : String
deriving DecidableEq, Repr

/-- The payload `main` submits for the bundle at 1-based position `idx`
whose distribution set resolved to `dsId`, with the run's device list
`serials` and selection query `query`. -/
def mainRolloutPayload (seqChoice : String) (serials : List String)
    (idx dsId : Nat) (query : String) : RolloutPayload :=
  { name := rolloutName seqChoice serials idx
    distributionSetId := dsId
    targetFilterQuery := query
    actionType := "forced"
    amountGroups := 1
    start := "auto" }

end Hawkbit

namespace Hawkbit

/-! ### Helper lemmas about the query builder -/

theorem extractAux_skip (pre l : List Char) (h : quoteChar ∉ pre) :
    extractAux (pre ++ l) [] false = extractAux l [] false := by
  induction pre with
  | nil => rfl
  | cons c t ih =>
    have hc : ¬ c = quoteChar := fun hc => h (hc ▸ List.mem_cons_self c t)
    have h' : quoteChar ∉ t := fun hm => h (List.mem_cons_of_mem c hm)
    simp only [List.cons_append, extractAux, Bool.false_eq_true, if_false,
      if_neg hc]
    exact ih h'

theorem extractAux_nil_of_no_quote (l : List Char) (h : quoteChar ∉ l) :
    extractAux l [] false = [] := by
  have := extractAux_skip l [] h
  simpa using this

theorem extractAux_quoted (s : List Char) (h : quoteChar ∉ s) :
    ∀ rest acc, extractAux (s ++ quoteChar :: rest) acc true =
      (acc.reverse ++ s) :: extractAux rest [] false := by
  induction s with
  | nil => intro rest acc; simp [extractAux]
  | cons c t ih =>
    intro rest acc
    have hc : ¬ c = quoteChar := fun hc => h (hc ▸ List.mem_cons_self c t)
    have h' : quoteChar ∉ t := fun hm => h (List.mem_cons_of_mem c hm)
    simp only [List.cons_append, extractAux, if_true, if_neg hc,
      List.append_eq]
    rw [ih h' rest (c :: acc)]
    simp

theorem extractAux_pred (s rest : List Char) (h : quoteChar ∉ s) :
    extractAux (predFor s ++ rest) [] false =
      s :: extractAux rest [] false := by
  have hshape : predFor s ++ rest =
      "name==".data ++ (quoteChar :: (s ++ quoteChar :: rest)) := by
    simp [predFor, List.append_assoc]
  rw [hshape, extractAux_skip _ _ (by decide)]
  simp only [extractAux, if_pos rfl, Bool.false_eq_true, if_false]
  rw [extractAux_quoted s h rest []]
  simp

theorem extract_pyJoin (serials : List (List Char)) (tail : List Char)
    (hs : ∀ s ∈ serials, quoteChar ∉ s) (ht : quoteChar ∉ tail) :
    extractAux (pyJoin " or ".data (serials.map predFor) ++ tail) [] false =
      serials := by
  induction serials with
  | nil =>
    simpa [pyJoin] using extractAux_nil_of_no_quote tail ht
  | cons s rest ih =>
    have hsq : quoteChar ∉ s := hs s (List.mem_cons_self s rest)
    have hs' : ∀ x ∈ rest, quoteChar ∉ x :=
      fun x hx => hs x (List.mem_cons_of_mem s hx)
    cases rest with
    | nil =>
      simp only [List.map_cons, List.map_nil, pyJoin]
      rw [extractAux_pred s tail hsq, extractAux_nil_of_no_quote tail ht]
    | cons s₂ r₂ =>
      simp only [List.map_cons, pyJoin] at ih ⊢
      rw [List.append_assoc, List.append_assoc, extractAux_pred s _ hsq,
        extractAux_skip _ _ (by decide)]
      rw [ih hs']

end Hawkbit

/-- Claim C6: for a 200 answer the Identifier Resolver returns an
identifier exactly when the returned list contains an entry whose name and
version both equal the requested values (any returned identifier is the
id of such an entry), and every non-200 answer yields the same "not
found" outcome `none` as an empty match. -/
theorem Hawkbit.get_distribution_set_spec
    (status : Nat) (sets : List Hawkbit.DistSet) (name version : String) :
    (status = 200 →
      ((Hawkbit.get_distribution_set status sets name version).isSome ↔
        ∃ ds ∈ sets, ds.name = name ∧ ds.version = version)) ∧
    (∀ i, Hawkbit.get_distribution_set status sets name version = some i →
      ∃ ds ∈ sets, ds.id = i ∧ ds.name = name ∧ ds.version = version) ∧
    (status ≠ 200 →
      Hawkbit.get_distribution_set status sets name version = none) := by
  refine ⟨?_, ?_, ?_⟩
  · intro h
    subst h
    simp only [Hawkbit.get_distribution_set, ne_eq, not_true_eq_false,
      if_false]
    cases hf : sets.find? (fun ds => ds.name == name && ds.version == version) with
    | none =>
      simp only [Option.isSome_none, Bool.false_eq_true, false_iff]
      rintro ⟨ds, hmem, hn, hv⟩
      have := List.find?_eq_none.mp hf ds hmem
      simp [hn, hv] at this
    | some ds =>
      simp only [Option.isSome_some, true_iff]
      refine ⟨ds, List.mem_of_find?_eq_some hf, ?_⟩
      have := List.find?_some hf
      simpa using this
  · intro i hi
    unfold Hawkbit.get_distribution_set at hi
    by_cases h : status = 200
    · subst h
      simp only [ne_eq, not_true_eq_false, if_false] at hi
      cases hf : sets.find? (fun ds => ds.name == name && ds.version == version) with
      | none => rw [hf] at hi; exact absurd hi (by simp)
      | some ds =>
        rw [hf] at hi
        have hmem := List.mem_of_find?_eq_some hf
        have hp := List.find?_some hf
        simp only [Bool.and_eq_true, beq_iff_eq] at hp
        refine ⟨ds, hmem, ?_, hp.1, hp.2⟩
        simpa using hi
    · simp [h] at hi
  · intro h
    simp [Hawkbit.get_distribution_set, h]

/-- Claim C6 witness: a concrete 200 answer with two same-named candidates
of different versions resolves to the exactly matching one, and a 500
answer resolves to nothing. -/
theorem Hawkbit.get_distribution_set_spec_witness :
    (Hawkbit.get_distribution_set 200
      [⟨41, "fw", "1.0"⟩, ⟨42, "fw", "1.1"⟩] "fw" "1.1").isSome ∧
    Hawkbit.get_distribution_set 500
      [⟨41, "fw", "1.0"⟩, ⟨42, "fw", "1.1"⟩] "fw" "1.1" = none := by
  constructor
  · exact (Hawkbit.get_distribution_set_spec 200
      [⟨41, "fw", "1.0"⟩, ⟨42, "fw", "1.1"⟩] "fw" "1.1").1 rfl |>.mpr
      ⟨⟨42, "fw", "1.1"⟩, by simp, rfl, rfl⟩
  · exact (Hawkbit.get_distribution_set_spec 500
      [⟨41, "fw", "1.0"⟩, ⟨42, "fw", "1.1"⟩] "fw" "1.1").2.2 (by decide)

/-- Claim C9: both device-status queries return `true` exactly on a 200
response; the boolean cannot separate a 204 (valid absence) from any other
failing status, while the printed message does separate them. -/
theorem Hawkbit.device_status_bool_spec (status : Nat) (n v : String) :
    ((Hawkbit.get_assigned_ds status n v).1 = true ↔ status = 200) ∧
    ((Hawkbit.get_installed_ds status n v).1 = true ↔ status = 200) ∧
    (∀ s₁ s₂, s₁ ≠ 200 → s₂ ≠ 200 →
      (Hawkbit.get_assigned_ds s₁ n v).1 = (Hawkbit.get_assigned_ds s₂ n v).1 ∧
      (Hawkbit.get_installed_ds s₁ n v).1 = (Hawkbit.get_installed_ds s₂ n v).1) ∧
    (∀ s, s ≠ 200 → s ≠ 204 →
      (Hawkbit.get_assigned_ds 204 n v).2 ≠ (Hawkbit.get_assigned_ds s n v).2 ∧
      (Hawkbit.get_installed_ds 204 n v).2 ≠ (Hawkbit.get_installed_ds s n v).2) := by
  refine ⟨?_, ?_, ?_, ?_⟩
  · by_cases h : status = 200 <;>
      by_cases h' : status = 204 <;>
      simp [Hawkbit.get_assigned_ds, h, h']
  · by_cases h : status = 200 <;>
      by_cases h' : status = 204 <;>
      simp [Hawkbit.get_installed_ds, h, h']
  · intro s₁ s₂ h₁ h₂
    constructor <;>
      [skip; skip] <;>
      by_cases h₁' : s₁ = 204 <;>
      by_cases h₂' : s₂ = 204 <;>
      simp [Hawkbit.get_assigned_ds, Hawkbit.get_installed_ds, h₁, h₂, h₁', h₂']
  · intro s h200 h204
    constructor <;>
      simp [Hawkbit.get_assigned_ds, Hawkbit.get_installed_ds, h200, h204]

/-- Claim C9 witness: at the concrete statuses 204 and 503 both queries
return `false` while a 200 returns `true`, and the 204 and 503 messages
differ. -/
theorem Hawkbit.device_status_bool_spec_witness :
    (Hawkbit.get_assigned_ds 200 "fw" "1.1").1 = true ∧
    (Hawkbit.get_assigned_ds 204 "fw" "1.1").1 = (Hawkbit.get_assigned_ds 503 "fw" "1.1").1 ∧
    (Hawkbit.get_assigned_ds 204 "fw" "1.1").2 ≠ (Hawkbit.get_assigned_ds 503 "fw" "1.1").2 := by
  refine ⟨?_, ?_, ?_⟩
  · exact (Hawkbit.device_status_bool_spec 200 "fw" "1.1").1.mpr rfl
  · exact ((Hawkbit.device_status_bool_spec 200 "fw" "1.1").2.2.1 204 503
      (by decide) (by decide)).1
  · exact ((Hawkbit.device_status_bool_spec 200 "fw" "1.1").2.2.2 503
      (by decide) (by decide)).1

/-- Claim C7 counterexample: a device identifier containing a double
quote breaks the round trip — `generate_or_query` on the single identifier
`A"B` succeeds, yet extracting the quoted identifiers from the built
expression does not give back the supplied identifier list. -/
theorem Hawkbit.generate_or_query_roundtrip_cex :
    Hawkbit.generate_or_query [[['A', '"', 'B']]] =
      .ok (Hawkbit.buildOrQuery [['A', '"', 'B']]) [['A', '"', 'B']] ∧
    Hawkbit.extractQuoted (Hawkbit.buildOrQuery [['A', '"', 'B']]) ≠
      [['A', '"', 'B']] := by
  constructor
  · decide
  · decide

/-- Claim C7 (amended): for every run of the Selection Query Builder that
succeeds, provided no collected identifier contains the double-quote
character, the built expression's quoted identifiers are exactly the
collected identifier list — in order, duplicates preserved — and that
list is non-empty.  (The amendment adds the quote-free proviso: an
identifier containing `"` breaks the round trip, see the
counterexample.) -/
theorem Hawkbit.generate_or_query_roundtrip
    (rows : List (List (List Char))) (q : List Char)
    (serials : List (List Char))
    (hok : Hawkbit.generate_or_query rows = .ok q serials)
    (hq : ∀ s ∈ serials, Hawkbit.quoteChar ∉ s) :
    serials ≠ [] ∧ Hawkbit.extractQuoted q = serials := by
  by_cases h : Hawkbit.collectSerials rows = []
  · simp [Hawkbit.generate_or_query, h] at hok
  · simp only [Hawkbit.generate_or_query] at hok
    rw [if_neg h] at hok
    injection hok with hq' hs'
    subst hs'
    refine ⟨h, ?_⟩
    subst hq'
    show Hawkbit.extractAux (Hawkbit.buildOrQuery (Hawkbit.collectSerials rows)) [] false =
      Hawkbit.collectSerials rows
    unfold Hawkbit.buildOrQuery
    simp only [Hawkbit.extractAux, if_neg (by decide : ¬ '(' = Hawkbit.quoteChar),
      Bool.false_eq_true, if_false]
    exact Hawkbit.extract_pyJoin _ [')'] hq (by decide)

/-- Claim C7 witness: on the concrete row list `[["SN1"]]` the builder
succeeds and the round trip returns the identifier list unchanged. -/
theorem Hawkbit.generate_or_query_roundtrip_witness :
    Hawkbit.extractQuoted
      (Hawkbit.buildOrQuery [['S', 'N', '1']]) = [['S', 'N', '1']] :=
  (Hawkbit.generate_or_query_roundtrip [[['S', 'N', '1']]]
    (Hawkbit.buildOrQuery [['S', 'N', '1']]) [['S', 'N', '1']]
    (by decide) (by decide)).2

/-- Claim C8: the Selection Query Builder fails with the empty-input
error exactly when every cell of the input is blank after trimming (in
particular when the input is empty), and succeeds as soon as one
non-blank cell exists. -/
theorem Hawkbit.generate_or_query_empty_iff (rows : List (List (List Char))) :
    (Hawkbit.generate_or_query rows = .emptyInputError ↔
      ∀ v ∈ rows.flatten, Hawkbit.strip v = []) ∧
    ((∃ v ∈ rows.flatten, Hawkbit.strip v ≠ []) →
      ∃ q s, Hawkbit.generate_or_query rows = .ok q s) := by
  have hc : Hawkbit.collectSerials rows = [] ↔
      ∀ v ∈ rows.flatten, Hawkbit.strip v = [] := by
    unfold Hawkbit.collectSerials
    rw [List.filter_eq_nil_iff]
    constructor
    · intro h v hv
      have := h (Hawkbit.strip v) (List.mem_map_of_mem _ hv)
      simpa using this
    · intro h a ha
      obtain ⟨v, hv, rfl⟩ := List.mem_map.mp ha
      simpa using h v hv
  constructor
  · rw [← hc]
    by_cases h : Hawkbit.collectSerials rows = [] <;>
      simp [Hawkbit.generate_or_query, h]
  · rintro ⟨v, hv, hne⟩
    have h : ¬ Hawkbit.collectSerials rows = [] := by
      rw [hc]; exact fun hall => hne (hall v hv)
    exact ⟨Hawkbit.buildOrQuery (Hawkbit.collectSerials rows),
      Hawkbit.collectSerials rows, by simp [Hawkbit.generate_or_query, h]⟩

/-- Claim C8 witness: an all-blank input fails with the empty-input
error; an input holding one non-blank cell succeeds. -/
theorem Hawkbit.generate_or_query_empty_iff_witness :
    Hawkbit.generate_or_query [[[' ', ' ']], [[]]] = .emptyInputError ∧
    ∃ q s, Hawkbit.generate_or_query [[[' ', 'A']]] = .ok q s :=
  ⟨(Hawkbit.generate_or_query_empty_iff [[[' ', ' ']], [[]]]).1.mpr (by decide),
   (Hawkbit.generate_or_query_empty_iff [[[' ', 'A']]]).2
     ⟨[' ', 'A'], by decide, by decide⟩⟩

namespace Hawkbit

/-! ### Helper lemma about the activation loop -/

theorem waitReady_isSome_iff (polls : Nat → Option String) :
    ∀ fuel k, (waitReady polls fuel k).isSome ↔
      ∃ j, k ≤ j ∧ j < k + fuel ∧ polls j = some "ready" := by
  intro fuel
  induction fuel with
  | zero =>
    intro k
    simp only [waitReady, Option.isSome_none, Bool.false_eq_true, false_iff]
    rintro ⟨j, h₁, h₂, _⟩
    omega
  | succ n ih =>
    intro k
    by_cases h : polls k = some "ready"
    · simp only [waitReady, if_pos h, Option.isSome_some, true_iff]
      exact ⟨k, Nat.le_refl k, by omega, h⟩
    · rw [waitReady, if_neg h, ih (k + 1)]
      constructor
      · rintro ⟨j, h₁, h₂, h₃⟩
        exact ⟨j, by omega, by omega, h₃⟩
      · rintro ⟨j, h₁, h₂, h₃⟩
        refine ⟨j, ?_, by omega, h₃⟩
        rcases Nat.eq_or_lt_of_le h₁ with rfl | hlt
        · exact absurd h₃ h
        · omega

end Hawkbit

/-- Claim C2: the Rollout Activator polls at most the fixed bound of 20
attempts with the fixed sleep of 5 between attempts; it issues the start
command exactly when some poll within the bound observes status `ready`,
and when the bound is exhausted it ends in the activation-timeout outcome
with the start command never issued. -/
theorem Hawkbit.start_rollout_spec (polls : Nat → Option String)
    (startStatus : Nat) :
    ((∃ k, k < Hawkbit.ACTIVATION_ATTEMPTS ∧ polls k = some "ready") ↔
      ∃ a ok, Hawkbit.start_rollout polls startStatus = .startIssued a ok) ∧
    ((∀ k, k < Hawkbit.ACTIVATION_ATTEMPTS → polls k ≠ some "ready") →
      Hawkbit.start_rollout polls startStatus = .activationTimeout) ∧
    Hawkbit.ACTIVATION_ATTEMPTS = 20 ∧ Hawkbit.ACTIVATION_SLEEP = 5 := by
  refine ⟨⟨?_, ?_⟩, ?_, rfl, rfl⟩
  · rintro ⟨k, hk, hr⟩
    have hsome : (Hawkbit.waitReady polls Hawkbit.ACTIVATION_ATTEMPTS 0).isSome := by
      rw [Hawkbit.waitReady_isSome_iff]
      exact ⟨k, Nat.zero_le k, by omega, hr⟩
    cases hw : Hawkbit.waitReady polls Hawkbit.ACTIVATION_ATTEMPTS 0 with
    | none => rw [hw] at hsome; simp at hsome
    | some a =>
      exact ⟨a, startStatus == 200 || startStatus == 202,
        by simp [Hawkbit.start_rollout, hw]⟩
  · rintro ⟨a, ok, hout⟩
    cases hw : Hawkbit.waitReady polls Hawkbit.ACTIVATION_ATTEMPTS 0 with
    | none =>
      rw [Hawkbit.start_rollout, hw] at hout
      exact absurd hout (by simp)
    | some j =>
      have hsome : (Hawkbit.waitReady polls Hawkbit.ACTIVATION_ATTEMPTS 0).isSome := by
        rw [hw]; rfl
      obtain ⟨j', _, hlt, hr⟩ :=
        (Hawkbit.waitReady_isSome_iff polls Hawkbit.ACTIVATION_ATTEMPTS 0).1 hsome
      exact ⟨j', by omega, hr⟩
  · intro hnone
    cases hw : Hawkbit.waitReady polls Hawkbit.ACTIVATION_ATTEMPTS 0 with
    | some j =>
      have hsome : (Hawkbit.waitReady polls Hawkbit.ACTIVATION_ATTEMPTS 0).isSome := by
        rw [hw]; rfl
      obtain ⟨j', _, hlt, hr⟩ :=
        (Hawkbit.waitReady_isSome_iff polls Hawkbit.ACTIVATION_ATTEMPTS 0).1 hsome
      exact absurd hr (hnone j' (by omega))
    | none => rw [Hawkbit.start_rollout, hw]

/-- Claim C2 witness: when every poll reports `running`, the concrete run
ends in the activation timeout; the constants are 20 attempts and a sleep
of 5. -/
theorem Hawkbit.start_rollout_spec_witness :
    Hawkbit.start_rollout (fun _ => some "running") 200 =
      .activationTimeout ∧ Hawkbit.ACTIVATION_ATTEMPTS = 20 :=
  ⟨(Hawkbit.start_rollout_spec (fun _ => some "running") 200).2.1
    (by decide),
   (Hawkbit.start_rollout_spec (fun _ => some "running") 200).2.2.1⟩

/-- Claim C4 counterexample: a 202 answer is a 2xx status, yet
`create_rollout` does not return the body's identifier — the code tests
`status_code in (200, 201)` only, so 202 takes the failure path. -/
theorem Hawkbit.create_rollout_cex :
    Hawkbit.create_rollout 202 7 "body" = .failure 202 "body" ∧
    ∀ i, Hawkbit.create_rollout 202 7 "body" ≠ .created i := by
  constructor
  · decide
  · intro i h
    simp [Hawkbit.create_rollout] at h

/-- Claim C4 (amended): the outcome mapping of the Rollout Creator is:
status 200 or 201 → the identifier taken from the response body; 409 →
the skip outcome (not a failure); any other status — including every
other 2xx such as 202 — → the failure outcome reported with the response
body.  Against the modelled server, a first call with a fresh name
creates it, and a second call with the same name answers 409, maps to
skip, and leaves exactly one rollout of that name. -/
theorem Hawkbit.create_rollout_spec (st bodyId : Nat) (bodyText : String) :
    (st = 200 ∨ st = 201 →
      Hawkbit.create_rollout st bodyId bodyText = .created bodyId) ∧
    (st = 409 → Hawkbit.create_rollout st bodyId bodyText = .skip) ∧
    (st ≠ 200 → st ≠ 201 → st ≠ 409 →
      Hawkbit.create_rollout st bodyId bodyText = .failure st bodyText) ∧
    (∀ srv name, name ∉ srv.names →
      (Hawkbit.create_rollout_on srv name).1 = .created srv.nextId ∧
      (Hawkbit.create_rollout_on
        (Hawkbit.create_rollout_on srv name).2 name).1 = .skip ∧
      ((Hawkbit.create_rollout_on
        (Hawkbit.create_rollout_on srv name).2 name).2).names.count name = 1) := by
  refine ⟨?_, ?_, ?_, ?_⟩
  · intro h
    rw [Hawkbit.create_rollout, if_pos h]
  · intro h
    subst h
    rw [Hawkbit.create_rollout, if_neg (by omega), if_pos rfl]
  · intro h₁ h₂ h₃
    rw [Hawkbit.create_rollout, if_neg (by omega), if_neg h₃]
  · intro srv name hni
    have h1 : Hawkbit.serverCreateRollout srv name =
        (201, srv.nextId, ⟨srv.names ++ [name], srv.nextId + 1⟩) := by
      rw [Hawkbit.serverCreateRollout, if_neg hni]
    have hmem : name ∈ srv.names ++ [name] :=
      List.mem_append_right _ (List.mem_singleton_self name)
    have h2 : Hawkbit.serverCreateRollout
        ⟨srv.names ++ [name], srv.nextId + 1⟩ name =
        (409, 0, ⟨srv.names ++ [name], srv.nextId + 1⟩) := by
      rw [Hawkbit.serverCreateRollout]
      exact if_pos hmem
    refine ⟨?_, ?_, ?_⟩
    · simp [Hawkbit.create_rollout_on, h1, Hawkbit.create_rollout]
    · simp [Hawkbit.create_rollout_on, h1, h2, Hawkbit.create_rollout]
    · simp only [Hawkbit.create_rollout_on, h1, h2]
      rw [List.count_append, List.count_eq_zero.mpr hni]
      simp

/-- Claim C4 witness: a concrete 201 answer returns the body identifier,
and the two concrete calls against the modelled server create then
skip. -/
theorem Hawkbit.create_rollout_spec_witness :
    Hawkbit.create_rollout 201 7 "" = .created 7 ∧
    (Hawkbit.create_rollout_on ⟨[], 5⟩ "Rollout_Seq_1.1_N0001_1").1 =
      .created 5 ∧
    (Hawkbit.create_rollout_on
      (Hawkbit.create_rollout_on ⟨[], 5⟩ "Rollout_Seq_1.1_N0001_1").2
      "Rollout_Seq_1.1_N0001_1").1 = .skip :=
  ⟨(Hawkbit.create_rollout_spec 201 7 "").1 (Or.inr rfl),
   ((Hawkbit.create_rollout_spec 0 0 "").2.2.2 ⟨[], 5⟩
     "Rollout_Seq_1.1_N0001_1" (by decide)).1,
   ((Hawkbit.create_rollout_spec 0 0 "").2.2.2 ⟨[], 5⟩
     "Rollout_Seq_1.1_N0001_1" (by decide)).2.1⟩

/-- Claim C5 counterexample: after a 409 the Selection Registrar fetches
a list that does contain an entry matching the requested name exactly, and
the update endpoint would answer 200 — yet the operation fails, because
the located entry's id is `0` and Python's `if fid:` treats it as "Filter
ID not found". -/
theorem Hawkbit.create_target_filter_cex :
    ([⟨0, "Target_filter", "old"⟩] : List Hawkbit.FilterEntry).find?
      (fun f => f.name == "Target_filter") =
      some ⟨0, "Target_filter", "old"⟩ ∧
    (Hawkbit.create_target_filter (fun _ => (409, ()))
      (fun _ => [⟨0, "Target_filter", "old"⟩]) (fun _ _ => (200, ()))
      "Target_filter" ()).1 = false := by
  constructor
  · decide
  · decide

/-- Claim C5 (amended): after a 409 the Selection Registrar locates the
first listed entry whose name equals the requested name exactly; provided
that entry's id is nonzero, the operation succeeds exactly when the
update on that id answers 200 or 204; when no entry matches — and also
when the matching entry's id is `0`, which Python's `if fid:` cannot
distinguish from a missing entry, see the counterexample — the operation
fails; any initial status other than 200/201/409 also fails.  Against the
modelled server (ids start at 1), a second call with the same name and a
changed expression leaves the stored expression equal to the new value. -/
theorem Hawkbit.create_target_filter_spec {σ : Type} (post : σ → Nat × σ)
    (list : σ → List Hawkbit.FilterEntry) (put : σ → Nat → Nat × σ)
    (name : String) (s : σ) :
    ((post s).1 = 200 ∨ (post s).1 = 201 →
      (Hawkbit.create_target_filter post list put name s).1 = true) ∧
    ((post s).1 = 409 →
      (∀ f, (list (post s).2).find? (fun g => g.name == name) = some f →
        f.id ≠ 0 →
        ((Hawkbit.create_target_filter post list put name s).1 = true ↔
          ((put (post s).2 f.id).1 = 200 ∨ (put (post s).2 f.id).1 = 204))) ∧
      ((list (post s).2).find? (fun g => g.name == name) = none →
        (Hawkbit.create_target_filter post list put name s).1 = false)) ∧
    ((post s).1 ≠ 200 → (post s).1 ≠ 201 → (post s).1 ≠ 409 →
      (Hawkbit.create_target_filter post list put name s).1 = false) ∧
    (∀ nm q1 q2 : String,
      (Hawkbit.create_target_filter_on ⟨[], 1⟩ nm q1).1 = true ∧
      (Hawkbit.create_target_filter_on
        (Hawkbit.create_target_filter_on ⟨[], 1⟩ nm q1).2 nm q2).1 = true ∧
      (Hawkbit.create_target_filter_on
        (Hawkbit.create_target_filter_on ⟨[], 1⟩ nm q1).2 nm q2).2.filters =
        [⟨1, nm, q2⟩]) := by
  refine ⟨?_, ?_, ?_, ?_⟩
  · intro h
    rw [Hawkbit.create_target_filter, if_pos h]
  · intro h9
    have hne : ¬ ((post s).1 = 200 ∨ (post s).1 = 201) := by omega
    constructor
    · intro f hf hfid
      rw [Hawkbit.create_target_filter, if_neg hne, if_pos h9, hf]
      by_cases hput : (put (post s).2 f.id).1 = 200 ∨ (put (post s).2 f.id).1 = 204
      · simp [hfid, hput]
      · simp [hfid, hput]
    · intro hf
      rw [Hawkbit.create_target_filter, if_neg hne, if_pos h9, hf]
  · intro h₁ h₂ h₃
    rw [Hawkbit.create_target_filter, if_neg (by omega), if_neg h₃]
  · intro nm q1 q2
    have hrun1 : Hawkbit.create_target_filter_on ⟨[], 1⟩ nm q1 =
        (true, ⟨[⟨1, nm, q1⟩], 2⟩) := by
      rw [Hawkbit.create_target_filter_on, Hawkbit.create_target_filter]
      simp [Hawkbit.serverPostFilter]
    have hpost2 : Hawkbit.serverPostFilter ⟨[⟨1, nm, q1⟩], 2⟩ nm q2 =
        (409, ⟨[⟨1, nm, q1⟩], 2⟩) := by
      simp [Hawkbit.serverPostFilter]
    have hput2 : Hawkbit.serverPutFilter ⟨[⟨1, nm, q1⟩], 2⟩ 1 nm q2 =
        (200, ⟨[⟨1, nm, q2⟩], 2⟩) := by
      simp [Hawkbit.serverPutFilter]
    have hrun2 : Hawkbit.create_target_filter_on ⟨[⟨1, nm, q1⟩], 2⟩ nm q2 =
        (true, ⟨[⟨1, nm, q2⟩], 2⟩) := by
      rw [Hawkbit.create_target_filter_on, Hawkbit.create_target_filter]
      simp [hpost2, hput2]
    refine ⟨by rw [hrun1], ?_, ?_⟩
    · rw [hrun1]
      show (Hawkbit.create_target_filter_on ⟨[⟨1, nm, q1⟩], 2⟩ nm q2).1 = true
      rw [hrun2]
    · rw [hrun1]
      show (Hawkbit.create_target_filter_on ⟨[⟨1, nm, q1⟩], 2⟩ nm q2).2.filters =
        [⟨1, nm, q2⟩]
      rw [hrun2]

/-- Claim C5 witness: against the modelled server, registering
`Target_filter` with an old expression and again with a new one succeeds
both times and stores the new expression. -/
theorem Hawkbit.create_target_filter_spec_witness :
    (Hawkbit.create_target_filter_on ⟨[], 1⟩ "Target_filter" "old").1 = true ∧
    (Hawkbit.create_target_filter_on
      (Hawkbit.create_target_filter_on ⟨[], 1⟩ "Target_filter" "old").2
      "Target_filter" "new").2.filters = [⟨1, "Target_filter", "new"⟩] :=
  ⟨((Hawkbit.create_target_filter_spec (fun _ => (0, ())) (fun _ => [])
      (fun _ _ => (0, ())) "" ()).2.2.2 "Target_filter" "old" "new").1,
   ((Hawkbit.create_target_filter_spec (fun _ => (0, ())) (fun _ => [])
      (fun _ _ => (0, ())) "" ()).2.2.2 "Target_filter" "old" "new").2.2⟩

namespace Hawkbit

/-! ### Helper lemma about the monitor loop -/

theorem monitorFrom_zero_eq (statuses : Nat → String)
    (interval timeout : Nat) (hi : 0 < interval) (k : Nat)
    (h : ∀ j, j < k →
      isTerminalStatus (statuses j) = false ∧ j * interval ≤ timeout) :
    monitorFrom statuses interval timeout hi 0 =
      monitorFrom statuses interval timeout hi k := by
  induction k with
  | zero => rfl
  | succ n ih =>
    have h' : ∀ j, j < n →
        isTerminalStatus (statuses j) = false ∧ j * interval ≤ timeout :=
      fun j hj => h j (by omega)
    obtain ⟨ht, hto⟩ := h n (by omega)
    rw [ih h', monitorFrom, ht]
    simp only [Bool.false_eq_true, if_false]
    rw [if_neg (by omega)]

end Hawkbit

/-- Claim C1: with every poll answering 200, monitoring terminates (the
loop is a total function of the model): it ends in the `ended` state at
the first poll whose status is terminal — `finished`, `error` or `paused`,
every other status keeps it polling — provided no earlier poll overran
the timeout; otherwise, when no terminal status appears up to one poll
past the timeout bound, it ends in the `timedOut` state at the first poll
whose elapsed time exceeds the timeout, and that elapsed time exceeds the
nominal timeout by at most one polling interval, because the timeout is
checked only after each poll completes. -/
theorem Hawkbit.monitor_rollout_spec (statuses : Nat → String)
    (interval timeout : Nat) (hi : 0 < interval) :
    (∀ k, Hawkbit.isTerminalStatus (statuses k) = true →
      (∀ j, j < k → Hawkbit.isTerminalStatus (statuses j) = false ∧
        j * interval ≤ timeout) →
      Hawkbit.monitor_rollout_until_done statuses interval timeout hi =
        .ended (statuses k) k) ∧
    ((∀ j, j ≤ timeout / interval + 1 →
        Hawkbit.isTerminalStatus (statuses j) = false) →
      Hawkbit.monitor_rollout_until_done statuses interval timeout hi =
        .timedOut (timeout / interval + 1) ∧
      timeout < (timeout / interval + 1) * interval ∧
      (timeout / interval + 1) * interval ≤ timeout + interval) := by
  constructor
  · intro k hk hprev
    rw [Hawkbit.monitor_rollout_until_done,
      Hawkbit.monitorFrom_zero_eq statuses interval timeout hi k hprev,
      Hawkbit.monitorFrom, hk]
    simp
  · intro hall
    have h1 : (timeout / interval) * interval ≤ timeout :=
      Nat.div_mul_le_self timeout interval
    have h2 : timeout < timeout / interval * interval + interval :=
      Nat.lt_div_mul_add hi
    have hmul : (timeout / interval + 1) * interval =
        (timeout / interval) * interval + interval := by ring
    have hK : ∀ j, j < timeout / interval + 1 →
        Hawkbit.isTerminalStatus (statuses j) = false ∧
          j * interval ≤ timeout := by
      intro j hj
      refine ⟨hall j (by omega), ?_⟩
      calc j * interval ≤ (timeout / interval) * interval :=
            Nat.mul_le_mul_right interval (by omega)
        _ ≤ timeout := h1
    refine ⟨?_, by omega, by omega⟩
    rw [Hawkbit.monitor_rollout_until_done,
      Hawkbit.monitorFrom_zero_eq statuses interval timeout hi
        (timeout / interval + 1) hK,
      Hawkbit.monitorFrom, hall (timeout / interval + 1) (Nat.le_refl _)]
    simp only [Bool.false_eq_true, if_false]
    rw [if_pos (by omega)]

/-- Claim C1 witness: with a 10-second interval, a 1800-second timeout
and the status sequence `running, running, finished, ...`, monitoring
ends at poll 2 with status `finished`. -/
theorem Hawkbit.monitor_rollout_spec_witness :
    Hawkbit.monitor_rollout_until_done
      (fun k => if k == 2 then "finished" else "running") 10 1800
      (Nat.succ_pos 9) = .ended "finished" 2 := by
  have h := (Hawkbit.monitor_rollout_spec
    (fun k => if k == 2 then "finished" else "running") 10 1800
    (Nat.succ_pos 9)).1 2 (by decide) (by decide)
  simpa using h

/-- Claim C3 counterexample: with the distribution set resolved (id 1),
the rollout created (id 7), and every activation poll answering
`running`, activation ends in the activation timeout — yet the loop body
still enters the monitor loop for that rollout. -/
theorem Hawkbit.driveBundle_cex :
    Hawkbit.start_rollout (fun _ => some "running") 200 =
      .activationTimeout ∧
    (Hawkbit.driveBundle 10 50 (Nat.succ_pos 9)
      ⟨some 1, .created 7, fun _ => some "running", 200,
        fun _ => "finished"⟩).any Hawkbit.isMonitorEnteredEvent = true := by
  constructor
  · decide
  · rfl

/-- Claim C3 (amended): when the resolver produced a nonzero id, creation
produced a nonzero rollout id, and activation fails with the activation
timeout, the start command is never issued, but the Sequence Driver still
enters the monitor loop for that rollout; afterwards the loop proceeds to
the remaining bundles in order regardless. -/
theorem Hawkbit.driveBundle_spec (interval timeout : Nat)
    (hi : 0 < interval) (b : Hawkbit.BundleRun) (d rid : Nat)
    (hds : b.dsId = some d) (hd : d ≠ 0)
    (hc : b.createOutcome = .created rid) (hrid : rid ≠ 0)
    (hact : Hawkbit.start_rollout b.polls b.startStatus =
      .activationTimeout) :
    Hawkbit.driveBundle interval timeout hi b =
      [.activated .activationTimeout,
       .monitorEntered (Hawkbit.monitor_rollout_until_done b.statuses
         interval timeout hi)] ∧
    ∀ rest, Hawkbit.driveSequence interval timeout hi (b :: rest) =
      Hawkbit.driveBundle interval timeout hi b ::
        Hawkbit.driveSequence interval timeout hi rest := by
  constructor
  · rw [Hawkbit.driveBundle, hds, hc]
    simp [hd, hrid, hact]
  · intro rest
    rfl

/-- Claim C3 witness: the concrete run of the counterexample inputs,
through the amended statement. -/
theorem Hawkbit.driveBundle_spec_witness :
    Hawkbit.driveBundle 10 50 (Nat.succ_pos 9)
      ⟨some 1, .created 7, fun _ => some "running", 200,
        fun _ => "finished"⟩ =
      [.activated .activationTimeout,
       .monitorEntered (Hawkbit.monitor_rollout_until_done
         (fun _ => "finished") 10 50 (Nat.succ_pos 9))] :=
  (Hawkbit.driveBundle_spec 10 50 (Nat.succ_pos 9)
    ⟨some 1, .created 7, fun _ => some "running", 200,
      fun _ => "finished"⟩ 1 7 rfl (by decide) rfl (by decide)
    (by decide)).1

/-- Claim C10: every rollout `main` creates uses exactly one group, the
action policy `forced`, and the generated name
`Rollout_Seq_` ++ sequence key ++ `_` ++ the last five characters of the
first device identifier ++ `_` ++ the 1-based position; for a fixed
sequence key and device list the name depends only on the position — not
on the resolved distribution set or the query. -/
theorem Hawkbit.main_rollout_payload_spec (seqChoice s0 : String)
    (rest : List String) (idx dsId : Nat) (query : String) :
    (Hawkbit.mainRolloutPayload seqChoice (s0 :: rest) idx dsId
      query).amountGroups = 1 ∧
    (Hawkbit.mainRolloutPayload seqChoice (s0 :: rest) idx dsId
      query).actionType = "forced" ∧
    (Hawkbit.mainRolloutPayload seqChoice (s0 :: rest) idx dsId
      query).start = "auto" ∧
    (Hawkbit.mainRolloutPayload seqChoice (s0 :: rest) idx dsId
      query).name =
      "Rollout_Seq_" ++ seqChoice ++ "_" ++ Hawkbit.lastFive s0 ++ "_"
        ++ toString idx ∧
    (∀ dsId' query',
      (Hawkbit.mainRolloutPayload seqChoice (s0 :: rest) idx dsId'
        query').name =
      (Hawkbit.mainRolloutPayload seqChoice (s0 :: rest) idx dsId
        query).name) := by
  refine ⟨rfl, rfl, rfl, ?_, fun dsId' query' => rfl⟩
  show Hawkbit.rolloutName seqChoice (s0 :: rest) idx = _
  rw [Hawkbit.rolloutName]
  rfl

/-- Claim C10 witness: the payload of the second bundle of sequence
`1.1` with first serial `SN000123`. -/
theorem Hawkbit.main_rollout_payload_spec_witness :
    (Hawkbit.mainRolloutPayload "1.1" ["SN000123", "SN000124"] 2 42
      "q").name = "Rollout_Seq_1.1_00123_2" ∧
    (Hawkbit.mainRolloutPayload "1.1" ["SN000123", "SN000124"] 2 42
      "q").amountGroups = 1 := by
  have h := Hawkbit.main_rollout_payload_spec "1.1" "SN000123"
    ["SN000124"] 2 42 "q"
  refine ⟨?_, h.1⟩
  rw [h.2.2.2.1]
  decide
